import Mathlib

/-!
Verification of the multi-agent research orchestration core of the
`simpleagent` repository.

The development shallowly embeds the pure decision logic of the source:

* `agents.py` / `execute_agents_parallel` — research fan-out, evidence
  merging, synthesis fan-out and answer assembly;
* `document_processor.py` / `query_documents` — the scoped document adapter;
* `web_search.py` / `search_duckduckgo` — the web adapter.

External collaborators (the LLM-backed agent executors, the FAISS index,
the database and the HTTP layer) are modelled as explicit oracle functions
supplied as inputs, matching the spec's "opaque async collaborator" view.
`asyncio` concurrency is modelled by the deterministic join semantics the
code exhibits: tasks are created at fan-out points and the stage awaits all
of them in task order; a raised exception propagates (`Except.error`).
Python strings are Lean `String`s / `List Char`; `json.loads` is modelled by
an executable JSON parser below; Python machine floats never undergo
arithmetic in the modelled code (scores are passed through and compared),
so relevance scores are modelled as `Int`.
-/

namespace SimpleAgent

/-! ## Generic character-list utilities (models of Python `str` operations) -/

/-- Model of Python substring test at the start: does `hay` start with `needle`? -/
def listStartsWith : List Char → List Char → Bool
  | [], _ => true
  | _ :: _, [] => false
  | n :: ns, h :: hs => n == h && listStartsWith ns hs

/-- Find the first occurrence of `needle` in `hay`; return the part before it
and the part after it (models Python `str.find`-based splitting, scanning
left to right). -/
def splitFirstSub (needle : List Char) : List Char → Option (List Char × List Char)
  | [] => if needle.isEmpty then some ([], []) else none
  | c :: rest =>
    if listStartsWith needle (c :: rest) then
      some ([], (c :: rest).drop needle.length)
    else
      (splitFirstSub needle rest).map (fun p => (c :: p.1, p.2))

/-- Model of the Python `in` substring test on strings. -/
def containsSub (needle hay : List Char) : Bool :=
  (splitFirstSub needle hay).isSome

/-- Model of Python `str.split(sep)` for a non-empty separator:
left-to-right, non-overlapping. `fuel` bounds recursion; callers pass the
input length, which suffices since each step consumes at least one char. -/
def splitSub (needle : List Char) : Nat → List Char → List (List Char)
  | 0, cs => [cs]
  | fuel + 1, cs =>
    match splitFirstSub needle cs with
    | none => [cs]
    | some (pre, post) => pre :: splitSub needle fuel post

/-- Model of Python `str.lower()` restricted to ASCII, which is all the
orchestration core ever feeds it. -/
def lowerL (cs : List Char) : List Char := cs.map Char.toLower

/-! ## JSON (executable model of Python `json.loads`)

`execute_agents_parallel` re-assembles a JSON fragment out of the document
research output and feeds it to `json.loads` inside a `try`/`except`; the
model below is an executable strict JSON parser returning `Option`
(`none` models `json.loads` raising). Numbers are kept as their literal
token — the orchestration core never computes with parsed numbers. -/

/-- Parsed JSON value (Python `json.loads` result). -/
inductive JValue where
  | jnull : JValue
  | jbool : Bool → JValue
  | jnum : String → JValue
  | jstr : String → JValue
  | jarr : List JValue → JValue
  | jobj : List (String × JValue) → JValue

/-- JSON insignificant whitespace (exactly the four chars Python's parser skips). -/
def isJsonWs (c : Char) : Bool :=
  c == ' ' || c == '\t' || c == '\n' || c == '\r'

/-- Skip insignificant whitespace. -/
def skipWs (cs : List Char) : List Char := cs.dropWhile isJsonWs

/-- Value of a hexadecimal digit character, by code-point arithmetic. -/
def hexDigitVal (c : Char) : Option Nat :=
  let n := c.toNat
  if 48 ≤ n && n ≤ 57 then some (n - 48)
  else if 97 ≤ n && n ≤ 102 then some (n - 87)
  else if 65 ≤ n && n ≤ 70 then some (n - 55)
  else none

/-- Decoded character of a single-letter JSON escape. -/
def escMap (e : Char) : Option Char :=
  if e == '"' || e == '\\' || e == '/' then some e
  else if e == 'b' then some '\x08'
  else if e == 'f' then some '\x0C'
  else if e == 'n' then some '\n'
  else if e == 'r' then some '\r'
  else if e == 't' then some '\t'
  else none

/-- Read four hexadecimal digits into a code point. -/
def readHex4 (cs : List Char) : Option (Nat × List Char) :=
  match cs with
  | a :: b :: c :: d :: rest =>
    (hexDigitVal a).bind (fun x =>
      (hexDigitVal b).bind (fun y =>
        (hexDigitVal c).bind (fun z =>
          (hexDigitVal d).map (fun u =>
            (((x * 16 + y) * 16 + z) * 16 + u, rest)))))
  | _ => none

/-- Parse a JSON string body (input starts after the opening quote); returns
the decoded content and the remainder after the closing quote. Mirrors the
strict mode of Python's parser: unescaped control characters and unknown
escapes are errors. -/
def parseStringLit : Nat → List Char → Option (List Char × List Char)
  | 0, _ => none
  | fuel + 1, cs =>
    match cs with
    | [] => none
    | c :: rest =>
      if c == '"' then some ([], rest)
      else if c == '\\' then
        match rest with
        | [] => none
        | e :: rest2 =>
          if e == 'u' then
            (readHex4 rest2).bind (fun p =>
              (parseStringLit fuel p.2).map (fun q => (Char.ofNat p.1 :: q.1, q.2)))
          else
            (escMap e).bind (fun dec =>
              (parseStringLit fuel rest2).map (fun q => (dec :: q.1, q.2)))
      else if c.toNat < 32 then none
      else (parseStringLit fuel rest).map (fun q => (c :: q.1, q.2))

/-- Parse the integer part of a JSON number (after an optional sign). -/
def parseIntPart : List Char → Option (List Char × List Char)
  | [] => none
  | c :: rest =>
    if c == '0' then some ([c], rest)
    else if c.isDigit then
      some (c :: rest.takeWhile Char.isDigit, rest.dropWhile Char.isDigit)
    else none

/-- Parse the optional fraction part of a JSON number. -/
def parseFracPart : List Char → Option (List Char × List Char)
  | '.' :: d :: rest =>
    if d.isDigit then
      some ('.' :: d :: rest.takeWhile Char.isDigit, rest.dropWhile Char.isDigit)
    else none
  | cs => some ([], cs)

/-- Parse the optional exponent part of a JSON number. -/
def parseExpPart : List Char → Option (List Char × List Char)
  | e :: rest =>
    if e == 'e' || e == 'E' then
      let (sgn, rest1) :=
        match rest with
        | '+' :: r => ((['+'] : List Char), r)
        | '-' :: r => ((['-'] : List Char), r)
        | _ => (([] : List Char), rest)
      match rest1 with
      | d :: r2 =>
        if d.isDigit then
          some (e :: sgn ++ d :: r2.takeWhile Char.isDigit, r2.dropWhile Char.isDigit)
        else none
      | [] => none
    else some ([], e :: rest)
  | [] => some ([], [])

/-- Parse a JSON number token (sign, integer part, optional fraction and
exponent), returning the token text and the remainder. -/
def parseNumberTok (cs : List Char) : Option (List Char × List Char) :=
  let (sign, cs1) :=
    match cs with
    | '-' :: rest => ((['-'] : List Char), rest)
    | _ => (([] : List Char), cs)
  (parseIntPart cs1).bind (fun ip =>
    (parseFracPart ip.2).bind (fun fp =>
      (parseExpPart fp.2).map (fun ep =>
        (sign ++ ip.1 ++ fp.1 ++ ep.1, ep.2))))

/-- Insert a key/value pair into an object's field list the way a Python
`dict` does during JSON decoding: a repeated key keeps its original position
and takes the later value. -/
def dictInsert (fs : List (String × JValue)) (k : String) (v : JValue) :
    List (String × JValue) :=
  if fs.any (fun p => p.1 == k) then
    fs.map (fun p => if p.1 == k then (k, v) else p)
  else fs ++ [(k, v)]

mutual

/-- Parse one JSON value; returns the value and the unconsumed remainder. -/
def parseVal : Nat → List Char → Option (JValue × List Char)
  | 0, _ => none
  | fuel + 1, cs =>
    match skipWs cs with
    | [] => none
    | c :: rest =>
      if c == '"' then
        (parseStringLit (rest.length + 1) rest).map (fun p => (.jstr p.1.asString, p.2))
      else if c == '[' then
        match skipWs rest with
        | ']' :: r => some (.jarr [], r)
        | r => (parseArrElems fuel r).map (fun p => (.jarr p.1, p.2))
      else if c == '{' then
        match skipWs rest with
        | '}' :: r => some (.jobj [], r)
        | r => (parseObjFields fuel r []).map (fun p => (.jobj p.1, p.2))
      else if c == 't' then
        if listStartsWith ['r', 'u', 'e'] rest then some (.jbool true, rest.drop 3) else none
      else if c == 'f' then
        if listStartsWith ['a', 'l', 's', 'e'] rest then some (.jbool false, rest.drop 4) else none
      else if c == 'n' then
        if listStartsWith ['u', 'l', 'l'] rest then some (.jnull, rest.drop 3) else none
      else if c == '-' || c.isDigit then
        (parseNumberTok (c :: rest)).map (fun p => (.jnum p.1.asString, p.2))
      else none

/-- Parse the elements of a non-empty JSON array, up to and including `]`. -/
def parseArrElems : Nat → List Char → Option (List JValue × List Char)
  | 0, _ => none
  | fuel + 1, cs =>
    (parseVal fuel cs).bind (fun p =>
      match skipWs p.2 with
      | ',' :: r => (parseArrElems fuel r).map (fun q => (p.1 :: q.1, q.2))
      | ']' :: r => some ([p.1], r)
      | _ => none)

/-- Parse the fields of a non-empty JSON object, up to and including the
closing brace; `acc` accumulates fields in insertion order. -/
def parseObjFields : Nat → List Char → List (String × JValue) →
    Option (List (String × JValue) × List Char)
  | 0, _, _ => none
  | fuel + 1, cs, acc =>
    match cs with
    | '"' :: rest =>
      (parseStringLit (rest.length + 1) rest).bind (fun kp =>
        match skipWs kp.2 with
        | ':' :: r =>
          (parseVal fuel r).bind (fun vp =>
            let acc' := dictInsert acc kp.1.asString vp.1
            match skipWs vp.2 with
            | ',' :: r2 => parseObjFields fuel (skipWs r2) acc'
            | '}' :: r2 => some (acc', r2)
            | _ => none)
        | _ => none)
    | _ => none

end

/-- Model of Python `json.loads`: parse a full JSON document; any trailing
non-whitespace is an error. `none` models a raised `JSONDecodeError`. -/
def jsonLoadsL (cs : List Char) : Option JValue :=
  match parseVal (2 * cs.length + 4) cs with
  | some (v, r) => if (skipWs r).isEmpty then some v else none
  | none => none

/-! ## Web adapter (`web_search.py`, `search_duckduckgo`)

The HTTP fetch and the BeautifulSoup HTML parse are external collaborators;
the model's input is the HTTP status together with the list of parsed
`div.result` elements (`soup.find_all("div", class_="result")`), each
carrying the optional `a.result__a` element (text and `href` attribute) and
the optional `a.result__snippet` text, in document order. -/

/-- The `a.result__a` element of one search result div. -/
structure TitleElem where
  text : String
  href : Option String

/-- One `div.result` element as extracted by the scrape. -/
structure ResultDiv where
  title_elem : Option TitleElem
  snippet_elem : Option String

/-- One item of the list `search_duckduckgo` returns. -/
structure WebItem where
  title : String
  snippet : String
  link : Option String
  source : String
deriving DecidableEq

/-- Percent-decode with `+` as space (model of `urllib.parse.unquote_plus`
as used by `parse_qs`; multibyte UTF-8 escapes are decoded bytewise). -/
def percentDecode : List Char → List Char
  | [] => []
  | '%' :: a :: b :: rest =>
    match (hexDigitVal a).bind (fun x => (hexDigitVal b).map (fun y => 16 * x + y)) with
    | some n => Char.ofNat n :: percentDecode rest
    | none => '%' :: percentDecode (a :: b :: rest)
  | '%' :: rest => '%' :: percentDecode rest
  | '+' :: rest => ' ' :: percentDecode rest
  | c :: rest => c :: percentDecode rest

/-- Split a character list on every occurrence of a separator character. -/
def splitChar (sep : Char) : List Char → List (List Char)
  | [] => [[]]
  | c :: rest =>
    if c == sep then [] :: splitChar sep rest
    else
      match splitChar sep rest with
      | [] => [[c]]
      | p :: ps => (c :: p) :: ps

/-- Model of `urllib.parse.urlparse(url).query`: the part after the first
`?` of the pre-fragment portion (empty when there is no `?`). -/
def urlQuery (url : String) : List Char :=
  let beforeFrag := (splitChar '#' url.toList).headD []
  match splitFirstSub ['?'] beforeFrag with
  | some (_, q) => q
  | none => []

/-- Model of `urllib.parse.parse_qs` (default options): split on `&`, keep
`key=value` pairs with a non-blank value, decode both sides; the resulting
association list keeps each key's values in order, so `List.lookup` is
Python's `parsed[key][0]`. -/
def parseQs (qs : List Char) : List (String × String) :=
  (splitChar '&' qs).filterMap (fun part =>
    match splitFirstSub ['='] part with
    | some (k, v) =>
      if v.isEmpty then none
      else some ((percentDecode k).asString, (percentDecode v).asString)
    | none => none)

/-- Clean a DuckDuckGo redirect link: mirrors
`if link and link.startswith("/l/?")` followed by the `uddg` query-parameter
extraction; any other link is returned unchanged. -/
def cleanLink : Option String → Option String
  | none => none
  | some l =>
    if !l.isEmpty && l.startsWith "/l/?" then
      match List.lookup "uddg" (parseQs (urlQuery l)) with
      | some v => some v
      | none => some l
    else some l

/-- Convert one result div to a result item: requires both the title and the
snippet elements (`if title_element and snippet_element`), strips their
texts, and cleans the link. -/
def convertDiv (d : ResultDiv) : Option WebItem :=
  match d.title_elem, d.snippet_elem with
  | some te, some sn =>
    some { title := te.text.trim, snippet := sn.trim,
           link := cleanLink te.href, source := "web" }
  | _, _ => none

/-- The scan loop of `search_duckduckgo`: enumerate the divs, stop as soon
as the enumeration index reaches `num_results`, keep convertible divs. -/
def searchLoop (i num_results : Nat) : List ResultDiv → List WebItem
  | [] => []
  | d :: ds =>
    if num_results ≤ i then []
    else
      match convertDiv d with
      | some r => r :: searchLoop (i + 1) num_results ds
      | none => searchLoop (i + 1) num_results ds

/-- Model of `search_duckduckgo`: on a non-200 HTTP status no results are
collected; otherwise the first `num_results` (default 5) divs are scanned in
the order the search surface provided. -/
def search_duckduckgo (status : Nat) (divs : List ResultDiv)
    (num_results : Nat := 5) : List WebItem :=
  if status = 200 then searchLoop 0 num_results divs else []

/-! ## Document adapter (`document_processor.py`, `query_documents`)

The FAISS index store and the database are external collaborators, bundled
in `DocEnv`: `index doc_id` is `some` exactly when the index file
`indices/{doc_id}.pkl` exists, and then gives the loaded vector store's
`similarity_search_with_score(query, k)`; `getDocument` is
`database.get_document`, which returns `None` (here `none`) for an unknown
id. Relevance scores undergo no arithmetic in the source, so they are
modelled as `Int`. -/

/-- One chunk returned by `similarity_search_with_score` (its
`page_content` and `metadata.get("page", 0)`). -/
structure DocChunk where
  page_content : String
  page : Option Nat

/-- The dictionary `database.get_document` builds (only the fields
`query_documents` reads). -/
structure DocRecord where
  title : Option String
  path : Option String

/-- External collaborators of `query_documents`. -/
structure DocEnv where
  index : String → Option (String → Nat → List (DocChunk × Int))
  getDocument : String → Option DocRecord

/-- One formatted entry of the `results` list `query_documents` returns. -/
structure DocResult where
  doc_id : String
  title : String
  content : String
  page : Nat
  score : Int
  source : String
deriving DecidableEq

/-- Return value of `query_documents`: the `results` list, and the
`error` field that is only present in the empty-scope response. -/
structure QueryDocsResult where
  results : List DocResult
  error : Option String
deriving DecidableEq

/-- Insert into a score-sorted list after all entries with a smaller-or-equal
score (so the overall sort below is stable, like Python `list.sort`). -/
def insertByScore (x : DocResult) : List DocResult → List DocResult
  | [] => [x]
  | y :: ys => if y.score ≤ x.score then y :: insertByScore x ys else x :: y :: ys

/-- Model of `combined_results.sort(key=lambda x: x["score"])`: stable
ascending sort by score. -/
def sortByScore (l : List DocResult) : List DocResult :=
  l.foldl (fun acc x => insertByScore x acc) []

/-- The per-id loop of `query_documents`: ids without a backing index file
are skipped (`continue`); for an id with an index, the chunk hits are
formatted with the document record's title and path (an id whose database
record is missing makes `doc.get(...)` raise `AttributeError`, modelled as
`Except.error`). -/
def docLoop (env : DocEnv) (q : String) :
    List String → List DocResult → Except Unit (List DocResult)
  | [], acc => .ok acc
  | id :: rest, acc =>
    match env.index id with
    | none => docLoop env q rest acc
    | some searchFn =>
      let rs := searchFn q 5
      match env.getDocument id with
      | none => .error ()
      | some d =>
        docLoop env q rest (acc ++ rs.map (fun p =>
          { doc_id := id, title := d.title.getD "Unknown",
            content := p.1.page_content, page := p.1.page.getD 0,
            score := p.2, source := d.path.getD "Unknown" }))

/-- Model of `query_documents`: an empty or absent id scope short-circuits
with an empty result list and the informational `"No documents specified"`
signal; otherwise the per-id loop runs and the combined hits are sorted by
ascending relevance score. -/
def query_documents (env : DocEnv) (q : String)
    (doc_ids : Option (List String)) : Except Unit QueryDocsResult :=
  match doc_ids with
  | none => .ok { results := [], error := some "No documents specified" }
  | some ids =>
    if ids.isEmpty then .ok { results := [], error := some "No documents specified" }
    else
      match docLoop env q ids [] with
      | .error e => .error e
      | .ok combined => .ok { results := sortByScore combined, error := none }

/-! ## Orchestration core (`agents.py`, `execute_agents_parallel`)

Each of the four LangChain agent executors is an external collaborator: a
function from its `input` string to either a raised exception (`raised`) or
a returned result dict, of which the core only reads the optional
`"output"` entry (`returned`). The research fan-out awaits its tasks in
creation order; the synthesis fan-out is `asyncio.gather`, which re-raises
an exception of either task. Neither fan-out catches exceptions, so a
raised outcome makes the whole coroutine raise (`Except.error`). -/

/-- Outcome of awaiting one agent invocation. -/
inductive AgentOutcome where
  | raised : AgentOutcome
  | returned : Option String → AgentOutcome
deriving DecidableEq

/-- The four agent-executor collaborators, each taking its `input` string. -/
structure Collaborators where
  docAgent : String → AgentOutcome
  webAgent : String → AgentOutcome
  writingAgent : String → AgentOutcome
  validationAgent : String → AgentOutcome

/-- Input given to the document research agent. -/
def doc_research_input (query : String) : String :=
  "Find information related to: " ++ query

/-- Input given to the web research agent. -/
def web_research_input (query : String) : String :=
  "Search the web for information about: " ++ query

/-- Input given to the writing agent (embeds the evidence transcript). -/
def writing_input (query combined : String) : String :=
  "Create a comprehensive answer to the query: '" ++ query ++
    "' based on this information: " ++ combined

/-- Input given to the validation agent (embeds the evidence transcript,
and nothing else). -/
def validation_input (combined : String) : String :=
  "Validate this information and check for any inconsistencies or missing details: "
    ++ combined

/-- Python truthiness of the optional id list:
`if doc_ids and len(doc_ids) > 0`. -/
def has_doc_task : Option (List String) → Bool
  | none => false
  | some l => !l.isEmpty

/-- The research tasks created at the first fan-out point, tagged with
their bucket names, in creation order (document before web). -/
def research_tasks (c : Collaborators) (query : String)
    (doc_ids : Option (List String)) (include_web_search : Bool) :
    List (String × AgentOutcome) :=
  (if has_doc_task doc_ids then
    [("document_research", c.docAgent (doc_research_input query))] else [])
  ++ (if include_web_search then
    [("web_research", c.webAgent (web_research_input query))] else [])

/-- The await loop over the research tasks: each settled task's
`result.get("output", "No information found.")` is stored under its bucket
name; a raised task propagates. -/
def await_research : List (String × AgentOutcome) →
    Except Unit (List (String × String))
  | [] => .ok []
  | (_, .raised) :: _ => .error ()
  | (name, .returned o) :: rest =>
    (await_research rest).map (fun tl => (name, o.getD "No information found.") :: tl)

/-- The evidence transcript: document bucket first, then web bucket, each
present only when its key is in the collected results. -/
def combined_research (rr : List (String × String)) : String :=
  (match List.lookup "document_research" rr with
   | some d => "DOCUMENT SOURCES:\n" ++ d ++ "\n\n"
   | none => "")
  ++ (match List.lookup "web_research" rr with
      | some w => "WEB SOURCES:\n" ++ w ++ "\n\n"
      | none => "")

/-- A provenance record of the final `sources` list: a Python dict. -/
def SourceRec := List (String × JValue)

/-- The sentinel answer of the empty-evidence short-circuit. -/
def no_sources_answer : String :=
  "No sources available for research. Please select at least one document or enable web search."

/-- The reconstructed JSON fragment for document provenance:
`"{\"results\"" + doc_output.split("results")[1].split("]")[0] + "]"`;
`none` models the unreachable `IndexError` path (the caller guards on the
substring `"results"` being present). -/
def doc_results_str (doc_output : String) : Option (List Char) :=
  let cs := doc_output.toList
  match splitSub "results".toList (cs.length + 1) cs with
  | _ :: p1 :: _ =>
    some ("\x7b\"results\"".toList
      ++ (splitSub "]".toList (p1.length + 1) p1).headD []
      ++ "]".toList)
  | _ => none

/-- The tagging assignment `source["type"] = "document"` on a parsed
source dict. -/
def tagDocument (fields : List (String × JValue)) : SourceRec :=
  dictInsert fields "type" (.jstr "document")

/-- The `for source in doc_sources` loop: each dict gets its `type` tag and
is appended; a non-dict element raises, which the enclosing `except`
swallows, keeping the records already appended. -/
def tagDocLoop : List JValue → List SourceRec → List SourceRec
  | [], acc => acc
  | .jobj fields :: rest, acc => tagDocLoop rest (acc ++ [tagDocument fields])
  | _ :: _, acc => acc

/-- Document-bucket provenance extraction (the first `try`/`except` block of
the Answer Assembler): guarded by the substring `"results"`, it re-assembles
a JSON fragment, parses it, reads `.get("results", [])` of the resulting
dict, and tags each element; every raised exception along the way yields the
records appended so far (usually none). -/
def extract_doc_sources (doc_output : String) : List SourceRec :=
  if containsSub "results".toList doc_output.toList then
    match doc_results_str doc_output with
    | none => []
    | some fragment =>
      match jsonLoadsL fragment with
      | none => []
      | some v =>
        match v with
        | .jobj fields =>
          match (List.lookup "results" fields).getD (.jarr []) with
          | .jarr xs => tagDocLoop xs []
          | _ => []
        | _ => []
  else []

/-- Take up to the first newline: returns the consumed group and the rest
after the newline (or the whole input when there is none) — the behaviour
of the lazy `(.*?)(?:\n|$)` tail of the web-results pattern. -/
def takeToNewline (cs : List Char) : List Char × List Char :=
  match splitFirstSub ['\n'] cs with
  | some (g, rest) => (g, rest)
  | none => (cs, [])

/-- Model of `re.findall(r"Title: (.*?)\nSnippet: (.*?)\nLink: (.*?)(?:\n|$)",
web_output, re.DOTALL)`: scan left to right; each match takes the earliest
`"\nSnippet: "` after its `"Title: "` and the earliest `"\nLink: "` after
that (lazy groups under DOTALL), the link group running to the first newline
or to the end; scanning resumes after the match. -/
def webFindAll : Nat → List Char → List (String × String × String)
  | 0, _ => []
  | fuel + 1, cs =>
    match splitFirstSub "Title: ".toList cs with
    | none => []
    | some (_, afterTitle) =>
      match splitFirstSub "\nSnippet: ".toList afterTitle with
      | none => []
      | some (g1, afterSnip) =>
        match splitFirstSub "\nLink: ".toList afterSnip with
        | none => []
        | some (g2, afterLink) =>
          let (g3, rest) := takeToNewline afterLink
          (g1.asString, g2.asString, g3.asString) :: webFindAll fuel rest

/-- Web-bucket provenance extraction (the second `try`/`except` block of the
Answer Assembler): guarded by the case-insensitive substring
`"search results"`, each pattern match becomes a
`{title, content, link, type: "web"}` record. -/
def extract_web_sources (web_output : String) : List SourceRec :=
  let cs := web_output.toList
  if containsSub "search results".toList (lowerL cs) then
    (webFindAll (cs.length + 1) cs).map (fun m =>
      [("title", JValue.jstr m.1), ("content", JValue.jstr m.2.1),
       ("link", JValue.jstr m.2.2), ("type", JValue.jstr "web")])
  else []

/-- The flat provenance list: document records (when the bucket exists)
followed by web records (when the bucket exists). -/
def assemble_sources (rr : List (String × String)) : List SourceRec :=
  (match List.lookup "document_research" rr with
   | some d => extract_doc_sources d
   | none => [])
  ++ (match List.lookup "web_research" rr with
      | some w => extract_web_sources w
      | none => [])

/-- The final response object; `validation` is absent in the sentinel
short-circuit response and present otherwise. -/
structure OrchestrationResult where
  answer : String
  validation : Option String
  sources : List SourceRec

/-- Model of `execute_agents_parallel`: research fan-out and await, evidence
merge, empty-evidence short-circuit, synthesis fan-out (`asyncio.gather`
re-raising a raised task), sentinel substitution for a missing `"output"`
entry, and provenance assembly. -/
def execute_agents_parallel (c : Collaborators) (query : String)
    (doc_ids : Option (List String) := none) (include_web_search : Bool := false) :
    Except Unit OrchestrationResult :=
  match await_research (research_tasks c query doc_ids include_web_search) with
  | .error e => .error e
  | .ok rr =>
    let combined := combined_research rr
    if combined = "" then
      .ok { answer := no_sources_answer, validation := none, sources := [] }
    else
      match c.writingAgent (writing_input query combined),
            c.validationAgent (validation_input combined) with
      | .raised, _ => .error ()
      | .returned _, .raised => .error ()
      | .returned wo, .returned vo =>
        .ok { answer := wo.getD "Could not generate an answer.",
              validation := some (vo.getD "No validation performed."),
              sources := assemble_sources rr }

/-- The generation invocations a run performs, in creation order, with the
inputs they receive: none on the short-circuit path, and both the writing
and the validation task (created before the join, so both are invoked even
if one of them raises) otherwise. -/
def generation_calls (c : Collaborators) (query : String)
    (doc_ids : Option (List String)) (include_web_search : Bool) :
    Except Unit (List (String × String)) :=
  match await_research (research_tasks c query doc_ids include_web_search) with
  | .error e => .error e
  | .ok rr =>
    let combined := combined_research rr
    if combined = "" then .ok []
    else .ok [("writing", writing_input query combined),
              ("validation", validation_input combined)]

/-! ## Concrete collaborator and environment instances used in the claims -/

/-- Collaborator instance where web search finds nothing: the web research
agent returns an empty output string, and the generation agents return
recognizable outputs. -/
def collabEmptyWeb : Collaborators :=
  { docAgent := fun _ => .returned none,
    webAgent := fun _ => .returned (some ""),
    writingAgent := fun _ => .returned (some "GENERATED ANSWER"),
    validationAgent := fun _ => .returned (some "VALIDATED") }

/-- Collaborator instance where the document research agent raises while
the web research agent succeeds with findings. -/
def collabDocRaises : Collaborators :=
  { docAgent := fun _ => .raised,
    webAgent := fun _ => .returned (some "web findings"),
    writingAgent := fun _ => .returned (some "ANSWER"),
    validationAgent := fun _ => .returned (some "OK") }

/-- Collaborator instance where research succeeds but the writing task
raises. -/
def collabWritingRaises : Collaborators :=
  { docAgent := fun _ => .returned (some "doc findings"),
    webAgent := fun _ => .returned (some "web findings"),
    writingAgent := fun _ => .raised,
    validationAgent := fun _ => .returned (some "OK") }

/-- Collaborator instance where both generation tasks complete but return
dicts without an `"output"` entry. -/
def collabNoOutput : Collaborators :=
  { docAgent := fun _ => .returned (some "doc findings"),
    webAgent := fun _ => .returned none,
    writingAgent := fun _ => .returned none,
    validationAgent := fun _ => .returned none }

/-- Document-adapter environment with no backing index for any id. -/
def docEnvNoIndex : DocEnv :=
  { index := fun _ => none, getDocument := fun _ => none }

/-- Document-adapter environment where only `"d1"` has a backing index (an
index whose similarity search returns one chunk). -/
def docEnvOneIndex : DocEnv :=
  { index := fun i =>
      if i == "d1" then some (fun _ _ => [({ page_content := "Paris", page := some 1 }, 3)])
      else none,
    getDocument := fun _ => some { title := some "Geo", path := some "p.pdf" } }

/-! ## Helper lemmas -/

/-- A string with positive length is not the empty string. -/
theorem ne_empty_of_length_pos (s : String) (h : 0 < s.length) : s ≠ "" := by
  intro he
  rw [he] at h
  exact absurd h (by decide)

/-- The await loop preserves which bucket names are present: a key has a
binding in the collected results exactly when some research task carried it. -/
theorem await_research_lookup_isSome (k : String) :
    ∀ (ts : List (String × AgentOutcome)) (rr : List (String × String)),
      await_research ts = .ok rr →
      (List.lookup k rr).isSome = (List.lookup k ts).isSome := by
  intro ts
  induction ts with
  | nil =>
    intro rr h
    simp only [await_research] at h
    cases h
    rfl
  | cons t rest ih =>
    intro rr h
    obtain ⟨name, out⟩ := t
    cases out with
    | raised => exact absurd h (by simp [await_research])
    | returned o =>
      simp only [await_research] at h
      cases haux : await_research rest with
      | error e => rw [haux] at h; simp [Except.map] at h
      | ok tl =>
        rw [haux] at h
        simp only [Except.map] at h
        cases h
        by_cases hk : k = name
        · subst hk
          simp [List.lookup]
        · have hb : (k == name) = false := by simpa using hk
          simp only [List.lookup, hb]
          exact ih tl haux

/-- An evidence transcript with at least one bucket present is non-empty. -/
theorem combined_research_ne_empty (rr : List (String × String))
    (h : (List.lookup "document_research" rr).isSome = true ∨
         (List.lookup "web_research" rr).isSome = true) :
    combined_research rr ≠ "" := by
  apply ne_empty_of_length_pos
  unfold combined_research
  rcases h with h | h
  · obtain ⟨d, hd⟩ := Option.isSome_iff_exists.mp h
    rw [hd]
    cases hw : List.lookup "web_research" rr
    · simp only [String.length_append]
      have h1 : "DOCUMENT SOURCES:\n".length = 18 := rfl
      omega
    · simp only [String.length_append]
      have h1 : "DOCUMENT SOURCES:\n".length = 18 := rfl
      omega
  · obtain ⟨w, hw⟩ := Option.isSome_iff_exists.mp h
    rw [hw]
    cases hd : List.lookup "document_research" rr
    · simp only [String.length_append]
      have h1 : "WEB SOURCES:\n".length = 13 := rfl
      omega
    · simp only [String.length_append]
      have h1 : "WEB SOURCES:\n".length = 13 := rfl
      omega

/-! ## Claims -/

/-- C4: for every query with an empty `target_document_ids` list and
`include_web_search = false`, the orchestration result is exactly the
sentinel "no sources available" answer with an empty source list (and no
`validation` entry), and no generation task is invoked — for any behaviour
of the collaborators. -/
theorem c4_empty_scope_sentinel (c : Collaborators) (q : String) :
    execute_agents_parallel c q (some []) false =
      .ok { answer := no_sources_answer, validation := none, sources := [] }
    ∧ generation_calls c q (some []) false = .ok [] := by
  exact ⟨rfl, rfl⟩

/-- C1 is false on the code: with `include_web_search = true`, no document
adapter selected, and the web research bucket holding the empty output of an
adapter that returned an empty list, the orchestration does NOT return the
sentinel result — the answer comes from the writing agent — and both
generation tasks are invoked. -/
theorem c1_counterexample :
    execute_agents_parallel collabEmptyWeb "q" none true =
      .ok { answer := "GENERATED ANSWER", validation := some "VALIDATED", sources := [] }
    ∧ "GENERATED ANSWER" ≠ no_sources_answer
    ∧ (generation_calls collabEmptyWeb "q" none true).map List.length = .ok 2 := by
  refine ⟨rfl, ?_, rfl⟩
  intro h
  exact absurd (congrArg String.length h) (by decide)

/-- C1 (amended): the sentinel "no sources available" result — with
generation skipped — is produced exactly when no adapter is selected
(`doc_ids` empty or absent and `include_web_search` false); whenever at
least one adapter is selected and the research phase settles without an
exception, the run proceeds to invoke both generation tasks, regardless of
whether the adapters found anything. -/
theorem c1_sentinel_iff_no_adapter (c : Collaborators) (q : String)
    (d : Option (List String)) (w : Bool) :
    (has_doc_task d = false → w = false →
      execute_agents_parallel c q d w =
        .ok { answer := no_sources_answer, validation := none, sources := [] }
      ∧ generation_calls c q d w = .ok [])
    ∧ (∀ rr, await_research (research_tasks c q d w) = .ok rr →
        (has_doc_task d = true ∨ w = true) →
        (generation_calls c q d w).map List.length = .ok 2) := by
  constructor
  · intro hd hw
    have htasks : research_tasks c q d w = [] := by
      simp [research_tasks, hd, hw]
    constructor
    · simp [execute_agents_parallel, htasks, await_research, combined_research]
    · simp [generation_calls, htasks, await_research, combined_research]
  · intro rr hawait hsel
    have hne : combined_research rr ≠ "" := by
      apply combined_research_ne_empty
      rcases hsel with hd | hw
      · left
        rw [await_research_lookup_isSome "document_research" _ rr hawait]
        simp [research_tasks, hd, List.lookup]
      · right
        rw [await_research_lookup_isSome "web_research" _ rr hawait]
        rcases hdoc : has_doc_task d with _ | _ <;>
          simp [research_tasks, hdoc, hw, List.lookup]
    simp [generation_calls, hawait, hne, Except.map]

/-- Witness for the amended C1: the no-adapter case returns the sentinel
without generation, while an enabled web adapter that finds nothing still
leads to two generation calls. -/
theorem c1_witness :
    (execute_agents_parallel collabEmptyWeb "q" (some []) false =
      .ok { answer := no_sources_answer, validation := none, sources := [] }
     ∧ generation_calls collabEmptyWeb "q" (some []) false = .ok [])
    ∧ (generation_calls collabEmptyWeb "q" none true).map List.length = .ok 2 := by
  refine ⟨(c1_sentinel_iff_no_adapter collabEmptyWeb "q" (some []) false).1 rfl rfl, ?_⟩
  exact (c1_sentinel_iff_no_adapter collabEmptyWeb "q" none true).2
    [("web_research", "")] rfl (Or.inr rfl)

/-- C2 is false on the code: when the document adapter's invocation raises
while the web adapter succeeds, the run does not continue with the web
bucket — the exception propagates and the orchestration produces no result
at all. -/
theorem c2_counterexample :
    execute_agents_parallel collabDocRaises "q" (some ["d1"]) true = .error ()
    ∧ collabDocRaises.webAgent (web_research_input "q") =
        .returned (some "web findings") := by
  exact ⟨rfl, rfl⟩

/-- C2 (amended): if a selected adapter's invocation raises — the document
agent, or the web agent while any document agent settles — the exception
propagates out of the research await loop: the whole pipeline aborts with no
result and no generation call, instead of omitting the failing bucket. -/
theorem c2_raise_aborts (c : Collaborators) (q : String)
    (d : Option (List String)) (w : Bool)
    (h : (has_doc_task d = true ∧ c.docAgent (doc_research_input q) = .raised)
       ∨ (w = true ∧ c.webAgent (web_research_input q) = .raised
          ∧ c.docAgent (doc_research_input q) ≠ .raised)) :
    execute_agents_parallel c q d w = .error ()
    ∧ generation_calls c q d w = .error () := by
  have hawait : await_research (research_tasks c q d w) = .error () := by
    rcases h with ⟨hd, hr⟩ | ⟨hw, hr, hdr⟩
    · simp [research_tasks, hd, hr, await_research]
    · cases hdoc : has_doc_task d with
      | false => simp [research_tasks, hdoc, hw, hr, await_research]
      | true =>
        cases hout : c.docAgent (doc_research_input q) with
        | raised => exact absurd hout hdr
        | returned o =>
          simp [research_tasks, hdoc, hw, hr, hout, await_research, Except.map]
  constructor
  · simp [execute_agents_parallel, hawait]
  · simp [generation_calls, hawait]

/-- Witness for the amended C2: with the raising document agent and the
succeeding web agent, the run aborts with an exception. -/
theorem c2_witness :
    execute_agents_parallel collabDocRaises "q" (some ["d1"]) true = .error ()
    ∧ generation_calls collabDocRaises "q" (some ["d1"]) true = .error () := by
  exact c2_raise_aborts collabDocRaises "q" (some ["d1"]) true (Or.inl ⟨rfl, rfl⟩)

/-- C3 is false on the code: a run that reaches the Synthesis Stage and
whose writing task fails (raises) does not produce the sentinel answer —
`asyncio.gather` re-raises and no `OrchestrationResult` is returned. -/
theorem c3_counterexample :
    execute_agents_parallel collabWritingRaises "q" (some ["d1"]) false = .error () := by
  exact rfl

/-- C3 (amended): on a run that reaches the Synthesis Stage, the sentinel
strings `"Could not generate an answer."` / `"No validation performed."`
are substituted only when the corresponding task completes with a result
dict that lacks an `"output"` entry — the run then continues to a final
result; a generation task that raises instead aborts the whole pipeline
with the exception. -/
theorem c3_generation_sentinels (c : Collaborators) (q : String)
    (d : Option (List String)) (w : Bool) (rr : List (String × String))
    (hawait : await_research (research_tasks c q d w) = .ok rr)
    (hne : combined_research rr ≠ "") :
    (c.writingAgent (writing_input q (combined_research rr)) = .returned none →
     c.validationAgent (validation_input (combined_research rr)) = .returned none →
     execute_agents_parallel c q d w =
       .ok { answer := "Could not generate an answer.",
             validation := some "No validation performed.",
             sources := assemble_sources rr })
    ∧ (c.writingAgent (writing_input q (combined_research rr)) = .raised →
       execute_agents_parallel c q d w = .error ())
    ∧ (∀ wo, c.writingAgent (writing_input q (combined_research rr)) = .returned wo →
       c.validationAgent (validation_input (combined_research rr)) = .raised →
       execute_agents_parallel c q d w = .error ()) := by
  refine ⟨fun hW hV => ?_, fun hW => ?_, fun wo hW hV => ?_⟩
  · simp [execute_agents_parallel, hawait, hne, hW, hV]
  · simp [execute_agents_parallel, hawait, hne, hW]
  · simp [execute_agents_parallel, hawait, hne, hW, hV]

/-- Witness for the amended C3: a document-only run whose generation tasks
complete without an `"output"` entry yields both sentinel strings and still
returns a final result. -/
theorem c3_witness :
    execute_agents_parallel collabNoOutput "q" (some ["d1"]) false =
      .ok { answer := "Could not generate an answer.",
            validation := some "No validation performed.",
            sources := [] } := by
  exact (c3_generation_sentinels collabNoOutput "q" (some ["d1"]) false
    [("document_research", "doc findings")] rfl (by decide)).1 rfl rfl

/-- C5: the evidence transcript is merged by bucket identity in a fixed
order — all document evidence strictly before all web evidence when both
buckets are present, only the present bucket's text when exactly one is —
and it depends only on which buckets are bound, not on the order in which
the collected-results entries were produced. -/
theorem c5_bucket_order (rr rr' : List (String × String)) (d w : String) :
    (List.lookup "document_research" rr = some d →
     List.lookup "web_research" rr = some w →
     combined_research rr =
       ("DOCUMENT SOURCES:\n" ++ d ++ "\n\n") ++ ("WEB SOURCES:\n" ++ w ++ "\n\n"))
    ∧ (List.lookup "document_research" rr = some d →
       List.lookup "web_research" rr = none →
       combined_research rr = "DOCUMENT SOURCES:\n" ++ d ++ "\n\n")
    ∧ (List.lookup "document_research" rr = none →
       List.lookup "web_research" rr = some w →
       combined_research rr = "WEB SOURCES:\n" ++ w ++ "\n\n")
    ∧ (List.lookup "document_research" rr = List.lookup "document_research" rr' →
       List.lookup "web_research" rr = List.lookup "web_research" rr' →
       combined_research rr = combined_research rr') := by
  refine ⟨fun hd hw => ?_, fun hd hw => ?_, fun hd hw => ?_, fun h1 h2 => ?_⟩
  · simp [combined_research, hd, hw]
  · simp [combined_research, hd, hw]
  · simp [combined_research, hd, hw]
  · simp only [combined_research, h1, h2]

/-- Witness for C5: even when the collected-results entries list the web
bucket first (as if that concurrent task had settled first), the transcript
still places the document block before the web block, and it equals the
transcript of the document-first entry order. -/
theorem c5_witness :
    combined_research [("web_research", "W"), ("document_research", "D")] =
      ("DOCUMENT SOURCES:\n" ++ "D" ++ "\n\n") ++ ("WEB SOURCES:\n" ++ "W" ++ "\n\n")
    ∧ combined_research [("web_research", "W"), ("document_research", "D")] =
      combined_research [("document_research", "D"), ("web_research", "W")] := by
  refine ⟨(c5_bucket_order [("web_research", "W"), ("document_research", "D")]
    [("document_research", "D"), ("web_research", "W")] "D" "W").1 rfl rfl, ?_⟩
  exact (c5_bucket_order [("web_research", "W"), ("document_research", "D")]
    [("document_research", "D"), ("web_research", "W")] "D" "W").2.2.2 rfl rfl

/-- C6: whenever a run performs generation calls at all, it performs exactly
a writing call and a validation call, and there is a single transcript `t`
embedded byte-identically in both inputs (each input is a fixed literal
followed by `t`); moreover the calls — including the validation input — are
unchanged under any replacement of the writing agent, so the validation
input is built from the merged transcript only and can never contain the
writing task's output. -/
theorem c6_shared_transcript (c : Collaborators) (q : String)
    (d : Option (List String)) (w : Bool) (L : List (String × String))
    (hL : generation_calls c q d w = .ok L) (hne : L ≠ []) :
    (∃ t, L = [("writing", writing_input q t), ("validation", validation_input t)]
      ∧ writing_input q t =
          "Create a comprehensive answer to the query: '" ++ q ++
            "' based on this information: " ++ t
      ∧ validation_input t =
          "Validate this information and check for any inconsistencies or missing details: "
            ++ t)
    ∧ ∀ wa : String → AgentOutcome,
        generation_calls { c with writingAgent := wa } q d w = .ok L := by
  constructor
  · cases hA : await_research (research_tasks c q d w) with
    | error e =>
      simp only [generation_calls, hA] at hL
      cases hL
    | ok rr =>
      simp only [generation_calls, hA] at hL
      by_cases hC : combined_research rr = ""
      · rw [if_pos hC] at hL
        cases hL
        exact absurd rfl hne
      · rw [if_neg hC] at hL
        cases hL
        exact ⟨combined_research rr, rfl, rfl, rfl⟩
  · intro wa
    have hsame : generation_calls { c with writingAgent := wa } q d w =
        generation_calls c q d w := rfl
    rw [hsame, hL]

/-- Witness for C6: in the web-only empty-findings run, the two generation
calls share the transcript `"WEB SOURCES:\n\n\n"`. -/
theorem c6_witness :
    (∃ t, ([("writing", writing_input "q" "WEB SOURCES:\n\n\n"),
            ("validation", validation_input "WEB SOURCES:\n\n\n")] : List (String × String)) =
        [("writing", writing_input "q" t), ("validation", validation_input t)]
      ∧ writing_input "q" t =
          "Create a comprehensive answer to the query: '" ++ "q" ++
            "' based on this information: " ++ t
      ∧ validation_input t =
          "Validate this information and check for any inconsistencies or missing details: "
            ++ t)
    ∧ ∀ wa : String → AgentOutcome,
        generation_calls { collabEmptyWeb with writingAgent := wa } "q" none true =
          .ok [("writing", writing_input "q" "WEB SOURCES:\n\n\n"),
               ("validation", validation_input "WEB SOURCES:\n\n\n")] := by
  exact c6_shared_transcript collabEmptyWeb "q" none true
    [("writing", writing_input "q" "WEB SOURCES:\n\n\n"),
     ("validation", validation_input "WEB SOURCES:\n\n\n")] rfl (by simp)

/-- C7: provenance extraction is best-effort and total — when the document
bucket's re-assembled JSON fragment does not parse, the document bucket
contributes no records; when the web bucket's text has no
Title/Snippet/Link match, the web bucket contributes no records; and a run
whose research phase settled and whose generation tasks do not raise always
returns an overall result, whatever the buckets' raw text. -/
theorem c7_lenient_extraction (docOut webOut : String) :
    ((∀ s, doc_results_str docOut = some s → jsonLoadsL s = none) →
      extract_doc_sources docOut = [])
    ∧ (webFindAll (webOut.toList.length + 1) webOut.toList = [] →
      extract_web_sources webOut = [])
    ∧ (∀ (c : Collaborators) (q : String) (d : Option (List String)) (w : Bool)
        (rr : List (String × String)),
        await_research (research_tasks c q d w) = .ok rr →
        c.writingAgent (writing_input q (combined_research rr)) ≠ .raised →
        c.validationAgent (validation_input (combined_research rr)) ≠ .raised →
        ∃ r, execute_agents_parallel c q d w = .ok r) := by
  refine ⟨fun h => ?_, fun h => ?_, fun c q d w rr hA hW hV => ?_⟩
  · cases hg : containsSub "results".toList docOut.toList with
    | false =>
      simp only [extract_doc_sources]
      rw [hg]
      simp
    | true =>
      simp only [extract_doc_sources]
      rw [hg]
      cases hs : doc_results_str docOut with
      | none => simp [hs]
      | some s => simp [hs, h s hs]
  · cases hg : containsSub "search results".toList (lowerL webOut.toList) with
    | false =>
      simp only [extract_web_sources]
      rw [hg]
      simp
    | true =>
      simp only [extract_web_sources]
      rw [hg, if_pos rfl, h]
      rfl
  · simp only [execute_agents_parallel, hA]
    by_cases hC : combined_research rr = ""
    · rw [if_pos hC]
      exact ⟨_, rfl⟩
    · rw [if_neg hC]
      cases hWo : c.writingAgent (writing_input q (combined_research rr)) with
      | raised => exact absurd hWo hW
      | returned wo =>
        cases hVo : c.validationAgent (validation_input (combined_research rr)) with
        | raised => exact absurd hVo hV
        | returned vo => exact ⟨_, rfl⟩

/-- Witness for C7: a document bucket whose text contains `"results"` but
re-assembles into unparseable JSON contributes nothing, a web bucket with no
pattern match contributes nothing, and the no-output generation run still
returns a result. -/
theorem c7_witness :
    extract_doc_sources "results: [1" = []
    ∧ extract_web_sources "no tags here" = []
    ∧ ∃ r, execute_agents_parallel collabNoOutput "q" (some ["d1"]) false = .ok r := by
  have h := c7_lenient_extraction "results: [1" "no tags here"
  refine ⟨h.1 ?_, h.2.1 rfl, h.2.2 collabNoOutput "q" (some ["d1"]) false
    [("document_research", "doc findings")] rfl (by decide) (by decide)⟩
  intro s hs
  rw [show doc_results_str "results: [1" = some ("\x7b\"results\": [1]".toList) from rfl] at hs
  injection hs with hs'
  subst hs'
  rfl

/-- Skipping ids without a backing index leaves the per-id loop of
`query_documents` unchanged. -/
theorem docLoop_filter (env : DocEnv) (q : String) :
    ∀ (ids : List String) (acc : List DocResult),
      docLoop env q ids acc =
        docLoop env q (ids.filter (fun i => (env.index i).isSome)) acc := by
  intro ids
  induction ids with
  | nil => intro acc; rfl
  | cons id rest ih =>
    intro acc
    cases hidx : env.index id with
    | none =>
      simp only [docLoop, hidx, List.filter_cons, Option.isSome_none,
        Bool.false_eq_true, if_false]
      exact ih acc
    | some searchFn =>
      simp only [docLoop, hidx, List.filter_cons, Option.isSome_some, if_true]
      cases hdoc : env.getDocument id with
      | none => simp [docLoop, hidx, hdoc]
      | some drec => simp only [docLoop, hidx, hdoc]; exact ih _

/-- C8: a call to the document adapter with an absent or empty id scope
returns an empty result list together with the informational
`"No documents specified"` signal (no exception); with a non-empty scope,
ids without a backing index are skipped without error — they contribute
nothing, and the outcome is exactly that of querying only the backed ids. -/
theorem c8_document_scope (env : DocEnv) (q : String) (ids : List String) :
    query_documents env q none =
      .ok { results := [], error := some "No documents specified" }
    ∧ query_documents env q (some []) =
      .ok { results := [], error := some "No documents specified" }
    ∧ (ids ≠ [] → ids.filter (fun i => (env.index i).isSome) = [] →
        query_documents env q (some ids) = .ok { results := [], error := none })
    ∧ (ids.filter (fun i => (env.index i).isSome) ≠ [] →
        query_documents env q (some ids) =
          query_documents env q (some (ids.filter (fun i => (env.index i).isSome)))) := by
  refine ⟨rfl, rfl, fun hne hfil => ?_, fun hfil => ?_⟩
  · have hemp : ids.isEmpty = false := by
      cases ids with
      | nil => exact absurd rfl hne
      | cons a l => rfl
    have hloop : docLoop env q ids [] = .ok [] := by
      rw [docLoop_filter env q ids [], hfil]
      rfl
    simp [query_documents, hemp, hloop, sortByScore]
  · have hne : ids ≠ [] := by
      intro h
      rw [h] at hfil
      exact hfil rfl
    have hemp : ids.isEmpty = false := by
      cases ids with
      | nil => exact absurd rfl hne
      | cons a l => rfl
    have hemp2 : (ids.filter (fun i => (env.index i).isSome)).isEmpty = false := by
      cases hf : ids.filter (fun i => (env.index i).isSome) with
      | nil => exact absurd hf hfil
      | cons a l => rfl
    simp only [query_documents, hemp, hemp2, Bool.false_eq_true, if_false]
    rw [docLoop_filter env q ids []]

/-- Witness for C8: the absent and empty scopes return the informational
signal; a scope whose only id has no index yields an empty, error-free
result; and a scope with one backed and one unbacked id behaves exactly as
the backed-only scope. -/
theorem c8_witness :
    query_documents docEnvNoIndex "q" none =
      .ok { results := [], error := some "No documents specified" }
    ∧ query_documents docEnvNoIndex "q" (some []) =
      .ok { results := [], error := some "No documents specified" }
    ∧ query_documents docEnvNoIndex "q" (some ["d1"]) =
      .ok { results := [], error := none }
    ∧ query_documents docEnvOneIndex "q" (some ["d1", "d2"]) =
      query_documents docEnvOneIndex "q" (some ["d1"]) := by
  refine ⟨(c8_document_scope docEnvNoIndex "q" []).1,
    (c8_document_scope docEnvNoIndex "q" []).2.1,
    (c8_document_scope docEnvNoIndex "q" ["d1"]).2.2.1 (by simp) rfl,
    (c8_document_scope docEnvOneIndex "q" ["d1", "d2"]).2.2.2 (by simp [docEnvOneIndex])⟩

/-- The scan loop of the web adapter equals truncation to the first
`n - i` divs followed by per-div conversion. -/
theorem searchLoop_take (n : Nat) :
    ∀ (ds : List ResultDiv) (i : Nat),
      searchLoop i n ds = (ds.take (n - i)).filterMap convertDiv := by
  intro ds
  induction ds with
  | nil => intro i; simp [searchLoop]
  | cons d ds ih =>
    intro i
    by_cases h : n ≤ i
    · have h0 : n - i = 0 := Nat.sub_eq_zero_of_le h
      simp [searchLoop, h, h0]
    · have hs : n - i = (n - (i + 1)) + 1 := by omega
      rw [hs]
      simp only [searchLoop, if_neg h, List.take_succ_cons, List.filterMap_cons]
      cases hc : convertDiv d with
      | some r => rw [ih (i + 1)]
      | none => rw [ih (i + 1)]

/-- C9: the web adapter returns at most `num_results` items (default 5 in
the source), and on a successful fetch its output is exactly the first
`num_results` result divs filtered through per-div conversion, in the order
the search surface provided — no re-sorting takes place. -/
theorem c9_web_adapter_top_n (status : Nat) (divs : List ResultDiv) (n : Nat) :
    search_duckduckgo status divs n =
      (if status = 200 then (divs.take n).filterMap convertDiv else [])
    ∧ (search_duckduckgo status divs n).length ≤ n := by
  have h1 : search_duckduckgo status divs n =
      (if status = 200 then (divs.take n).filterMap convertDiv else []) := by
    unfold search_duckduckgo
    by_cases h : status = 200
    · rw [if_pos h, if_pos h, searchLoop_take n divs 0, Nat.sub_zero]
    · rw [if_neg h, if_neg h]
  refine ⟨h1, ?_⟩
  rw [h1]
  by_cases h : status = 200
  · rw [if_pos h]
    calc ((divs.take n).filterMap convertDiv).length
        ≤ (divs.take n).length := List.length_filterMap_le _ _
      _ ≤ n := by rw [List.length_take]; omega
  · rw [if_neg h]
    exact Nat.zero_le n

/-- C10: the Answer Assembler extracts web records only when the web
bucket's raw output contains `"search results"` case-insensitively — absent
that marker, even well-formed Title/Snippet/Link entries contribute zero
records — and document records only when the document bucket's raw output
contains `"results"`. -/
theorem c10_extraction_guards (webOut docOut : String) :
    (containsSub "search results".toList (lowerL webOut.toList) = false →
      extract_web_sources webOut = [])
    ∧ (containsSub "results".toList docOut.toList = false →
      extract_doc_sources docOut = [])
    ∧ (webFindAll ("Title: T\nSnippet: S\nLink: http://e\n".toList.length + 1)
          "Title: T\nSnippet: S\nLink: http://e\n".toList ≠ []
      ∧ extract_web_sources "Title: T\nSnippet: S\nLink: http://e\n" = []) := by
  refine ⟨fun h => ?_, fun h => ?_, ?_, rfl⟩
  · simp only [extract_web_sources]
    rw [h]
    simp
  · simp only [extract_doc_sources]
    rw [h]
    simp
  · intro hcontra
    rw [show webFindAll ("Title: T\nSnippet: S\nLink: http://e\n".toList.length + 1)
          "Title: T\nSnippet: S\nLink: http://e\n".toList =
        [("T", "S", "http://e")] from rfl] at hcontra
    cases hcontra

/-- Witness for C10: a web output consisting of one well-formed entry but
lacking the `"search results"` marker yields zero web records, and a
document output without `"results"` yields zero document records. -/
theorem c10_witness :
    extract_web_sources "Title: T\nSnippet: S\nLink: http://e\n" = []
    ∧ extract_doc_sources "nothing relevant" = [] := by
  exact ⟨(c10_extraction_guards "Title: T\nSnippet: S\nLink: http://e\n"
      "nothing relevant").1 rfl,
    (c10_extraction_guards "Title: T\nSnippet: S\nLink: http://e\n"
      "nothing relevant").2.1 rfl⟩

end SimpleAgent
